import Mathlib

/-!
Shallow embedding of the TipJar Algorand smart contract
(src/projects/my-template/smart_contracts/tip_jar/contract.algo.ts).

Accounts and byte strings are modelled as Lean `String`s; `uint64` values
as `Nat`, with each arithmetic operation's overflow/underflow bound made an
explicit precondition of the call, matching AVM semantics where every
arithmetic fault aborts the transaction atomically.  Each contract method
becomes an `Except String` function: `.error msg` is a failed
`assert(cond, msg)` or arithmetic fault (the call rejects, no state
change), `.ok` carries the new global/local state, the list of inner
payment transactions the call submitted (receiver, amount), and the
method's return string.
-/

namespace TipJar

abbrev Addr := String

/-- `2 ^ 64`: AVM uint64 arithmetic faults when a result does not fit below this. -/
def U64LIMIT : Nat := 2 ^ 64

/-- `Global.zeroAddress`: the 32-zero-byte account address. -/
def zeroAddress : Addr := String.mk (List.replicate 32 (Char.ofNat 0))

/-- Per-creator local state, one record per account (contract.algo.ts lines 62-91). -/
structure Profile where
  creatorName : String
  creatorBio : String
  creatorCategory : String
  tipsReceived : Nat
  tipCount : Nat
  isRegistered : Nat
  profileImageUrl : String
  revSplitAddress : String
  revSplitPercent : Nat
  revSplitName : String
deriving Repr, DecidableEq

/-- Unset local state reads as zero / empty (AVM `app_local_get` default). -/
def defaultProfile : Profile :=
  { creatorName := "", creatorBio := "", creatorCategory := "",
    tipsReceived := 0, tipCount := 0, isRegistered := 0,
    profileImageUrl := "", revSplitAddress := "", revSplitPercent := 0,
    revSplitName := "" }

/-- Global state of the contract (contract.algo.ts lines 25-60), plus the
local-state store as an association list from account to profile. -/
structure TipJarState where
  totalCreators : Nat
  totalTipsProcessed : Nat
  totalTipCount : Nat
  minTipAmount : Nat
  platformFeeBps : Nat
  adminAddress : Addr
  pendingAdminAddress : Addr
  isPaused : Nat
  totalBadgesMinted : Nat
  totalFeesAccumulated : Nat
  bronzeThreshold : Nat
  silverThreshold : Nat
  goldThreshold : Nat
  diamondThreshold : Nat
  locals : List (Addr × Profile)
deriving Repr, DecidableEq

/-- The fields of a `gtxn.PaymentTxn` that `sendTip` inspects. -/
structure PaymentTxn where
  amount : Nat
  receiver : Addr
  closeRemainderTo : Addr
  rekeyTo : Addr
deriving Repr, DecidableEq

/-- Transaction context: `Txn.sender` and `Global.currentApplicationAddress`. -/
structure Ctx where
  sender : Addr
  appAddress : Addr
deriving Repr, DecidableEq

/-- Read an account's profile from the local-state store (default when absent). -/
def getProfile : List (Addr × Profile) → Addr → Profile
  | [], _ => defaultProfile
  | (b, p) :: rest, a => if b = a then p else getProfile rest a

/-- Write an account's profile (replace the first entry, or append). -/
def setProfile : List (Addr × Profile) → Addr → Profile → List (Addr × Profile)
  | [], a, p => [(a, p)]
  | (b, q) :: rest, a, p =>
    if b = a then (a, p) :: rest else (b, q) :: setProfile rest a p

/-- `createApplication`: initialization, admin set to the creating sender. -/
def createApplication (sender : Addr) : TipJarState :=
  { totalCreators := 0, totalTipsProcessed := 0, totalTipCount := 0,
    minTipAmount := 100000, platformFeeBps := 100,
    adminAddress := sender, pendingAdminAddress := "",
    isPaused := 0, totalBadgesMinted := 0, totalFeesAccumulated := 0,
    bronzeThreshold := 5000000, silverThreshold := 25000000,
    goldThreshold := 100000000, diamondThreshold := 500000000,
    locals := [] }

/-!
Each method is embedded as one decidable precondition gathering the method's
`assert` conditions (and the AVM arithmetic fault conditions, `uint64`
overflow/underflow) in source order, together with an error-chain function
that returns the message of the first failing assert, exactly as the
sequential asserts of the source would.  All assert conditions are pure
reads, so checking them jointly is observationally the same as the source's
sequential short-circuit checking.
-/

-- Constants (contract.algo.ts lines 95-115)
def MIN_CONTRACT_BALANCE : Nat := 100000
def MAX_NAME_LEN : Nat := 50
def MAX_BIO_LEN : Nat := 200
def MAX_CATEGORY_LEN : Nat := 20
def MAX_IMAGE_LEN : Nat := 200
def MAX_COLLAB_NAME_LEN : Nat := 50
def ADDR_LEN : Nat := 58

/-- First failing assert of `pauseContract` / `unpauseContract` / the other
admin-only methods' admin guard. -/
def adminErr : String := "Only admin can perform this action"

/-- `pauseContract` (admin-only circuit breaker). -/
def pauseContract (ctx : Ctx) (s : TipJarState) : Except String (TipJarState × String) :=
  if ctx.sender = s.adminAddress then
    Except.ok ({ s with isPaused := 1 }, "Contract paused")
  else Except.error adminErr

/-- `unpauseContract` (admin-only). -/
def unpauseContract (ctx : Ctx) (s : TipJarState) : Except String (TipJarState × String) :=
  if ctx.sender = s.adminAddress then
    Except.ok ({ s with isPaused := 0 }, "Contract unpaused")
  else Except.error adminErr

/-- `transferAdmin`: step 1 of the 2-step admin transfer. -/
def transferAdmin (ctx : Ctx) (s : TipJarState) (newAdmin : Addr) :
    Except String (TipJarState × String) :=
  if ctx.sender = s.adminAddress ∧ newAdmin ≠ ctx.sender then
    Except.ok ({ s with pendingAdminAddress := newAdmin },
      "Admin transfer initiated - new admin must call acceptAdmin()")
  else Except.error
    (if ctx.sender ≠ s.adminAddress then adminErr else "Cannot transfer to current admin")

/-- `acceptAdmin`: step 2, the pending admin accepts the role. -/
def acceptAdmin (ctx : Ctx) (s : TipJarState) : Except String (TipJarState × String) :=
  if s.pendingAdminAddress ≠ "" ∧ ctx.sender = s.pendingAdminAddress then
    Except.ok ({ s with adminAddress := ctx.sender, pendingAdminAddress := "" },
      "Admin role accepted")
  else Except.error
    (if s.pendingAdminAddress = "" then "No pending admin transfer"
     else "Only pending admin can accept")

/-- First failing assert of `registerCreator`, in source order. -/
def registerCreatorErr (ctx : Ctx) (s : TipJarState)
    (name bio category profileImage : String) : String :=
  if s.isPaused ≠ 0 then "Contract is paused"
  else if (getProfile s.locals ctx.sender).isRegistered = 1 then "Already registered as a creator"
  else if name.length = 0 then "Name cannot be empty"
  else if bio.length = 0 then "Bio cannot be empty"
  else if category.length = 0 then "Category cannot be empty"
  else if MAX_NAME_LEN < name.length then "Name exceeds 50 character limit"
  else if MAX_BIO_LEN < bio.length then "Bio exceeds 200 character limit"
  else if MAX_CATEGORY_LEN < category.length then "Category exceeds 20 character limit"
  else if MAX_IMAGE_LEN < profileImage.length then "Profile image URL exceeds 200 character limit"
  else "uint64 overflow"

/-- `registerCreator` (contract.algo.ts lines 221-253). -/
def registerCreator (ctx : Ctx) (s : TipJarState)
    (name bio category profileImage : String) :
    Except String (TipJarState × String) :=
  if s.isPaused = 0 ∧ (getProfile s.locals ctx.sender).isRegistered ≠ 1 ∧
     0 < name.length ∧ 0 < bio.length ∧ 0 < category.length ∧
     name.length ≤ MAX_NAME_LEN ∧ bio.length ≤ MAX_BIO_LEN ∧
     category.length ≤ MAX_CATEGORY_LEN ∧ profileImage.length ≤ MAX_IMAGE_LEN ∧
     s.totalCreators + 1 < U64LIMIT then
    Except.ok ({ s with
        locals := setProfile s.locals ctx.sender
          { creatorName := name, creatorBio := bio, creatorCategory := category,
            profileImageUrl := profileImage, tipsReceived := 0, tipCount := 0,
            isRegistered := 1, revSplitAddress := "", revSplitPercent := 0,
            revSplitName := "" },
        totalCreators := s.totalCreators + 1 },
      "Creator " ++ name ++ " registered successfully")
  else Except.error (registerCreatorErr ctx s name bio category profileImage)

/-- First failing assert of `updateProfile`, in source order. -/
def updateProfileErr (ctx : Ctx) (s : TipJarState)
    (name bio category profileImage : String) : String :=
  if s.isPaused ≠ 0 then "Contract is paused"
  else if (getProfile s.locals ctx.sender).isRegistered ≠ 1 then "Not a registered creator"
  else if ¬(0 < name.length ∧ name.length ≤ MAX_NAME_LEN) then "Name must be 1-50 characters"
  else if ¬(0 < bio.length ∧ bio.length ≤ MAX_BIO_LEN) then "Bio must be 1-200 characters"
  else if ¬(0 < category.length ∧ category.length ≤ MAX_CATEGORY_LEN) then
    "Category must be 1-20 characters"
  else "Profile image URL exceeds 200 character limit"

/-- `updateProfile` (contract.algo.ts lines 262-279). -/
def updateProfile (ctx : Ctx) (s : TipJarState)
    (name bio category profileImage : String) :
    Except String (TipJarState × String) :=
  if s.isPaused = 0 ∧ (getProfile s.locals ctx.sender).isRegistered = 1 ∧
     0 < name.length ∧ name.length ≤ MAX_NAME_LEN ∧
     0 < bio.length ∧ bio.length ≤ MAX_BIO_LEN ∧
     0 < category.length ∧ category.length ≤ MAX_CATEGORY_LEN ∧
     profileImage.length ≤ MAX_IMAGE_LEN then
    Except.ok ({ s with
        locals := setProfile s.locals ctx.sender
          { getProfile s.locals ctx.sender with
              creatorName := name, creatorBio := bio,
              creatorCategory := category, profileImageUrl := profileImage } },
      "Profile updated successfully")
  else Except.error (updateProfileErr ctx s name bio category profileImage)

/-- First failing assert of `setRevenueSplit`, in source order. -/
def setRevenueSplitErr (ctx : Ctx) (s : TipJarState)
    (collaboratorAddr collaboratorName : String) (splitPercent : Nat) : String :=
  if s.isPaused ≠ 0 then "Contract is paused"
  else if (getProfile s.locals ctx.sender).isRegistered ≠ 1 then "Not a registered creator"
  else if splitPercent < 1 then "Split must be at least 1%. Use removeRevenueSplit to clear"
  else if 50 < splitPercent then "Split cannot exceed 50%"
  else if collaboratorAddr.length ≠ ADDR_LEN then "Invalid collaborator address length"
  else if collaboratorName.length = 0 then "Collaborator name cannot be empty"
  else "Collaborator name exceeds 50 character limit"

/-- `setRevenueSplit` (contract.algo.ts lines 291-307). -/
def setRevenueSplit (ctx : Ctx) (s : TipJarState)
    (collaboratorAddr collaboratorName : String) (splitPercent : Nat) :
    Except String (TipJarState × String) :=
  if s.isPaused = 0 ∧ (getProfile s.locals ctx.sender).isRegistered = 1 ∧
     1 ≤ splitPercent ∧ splitPercent ≤ 50 ∧
     collaboratorAddr.length = ADDR_LEN ∧
     0 < collaboratorName.length ∧ collaboratorName.length ≤ MAX_COLLAB_NAME_LEN then
    Except.ok ({ s with
        locals := setProfile s.locals ctx.sender
          { getProfile s.locals ctx.sender with
              revSplitAddress := collaboratorAddr,
              revSplitName := collaboratorName,
              revSplitPercent := splitPercent } },
      "Revenue split configured")
  else Except.error (setRevenueSplitErr ctx s collaboratorAddr collaboratorName splitPercent)

/-- `removeRevenueSplit`. -/
def removeRevenueSplit (ctx : Ctx) (s : TipJarState) :
    Except String (TipJarState × String) :=
  if s.isPaused = 0 ∧ (getProfile s.locals ctx.sender).isRegistered = 1 then
    Except.ok ({ s with
        locals := setProfile s.locals ctx.sender
          { getProfile s.locals ctx.sender with
              revSplitAddress := "", revSplitName := "", revSplitPercent := 0 } },
      "Revenue split removed")
  else Except.error
    (if s.isPaused ≠ 0 then "Contract is paused" else "Not a registered creator")

/-- The platform fee of a tip: `(tipAmount * platformFeeBps) / 10_000`. -/
def feeOf (tipAmount platformFeeBps : Nat) : Nat := tipAmount * platformFeeBps / 10000

/-- First failing assert / arithmetic fault of `sendTip`, in source order. -/
def sendTipErr (ctx : Ctx) (s : TipJarState) (creator : Addr)
    (tipPayment : PaymentTxn) : String :=
  if s.isPaused ≠ 0 then "Contract is paused"
  else if (getProfile s.locals creator).isRegistered ≠ 1 then
    "Recipient is not a registered creator"
  else if tipPayment.amount < s.minTipAmount then "Tip amount below minimum"
  else if tipPayment.receiver ≠ ctx.appAddress then "Payment must be sent to the contract"
  else if tipPayment.closeRemainderTo ≠ zeroAddress then
    "Close remainder to must be zero address"
  else if tipPayment.rekeyTo ≠ zeroAddress then "Rekey to must be zero address"
  else if ctx.sender = creator then "Cannot tip yourself"
  else if U64LIMIT ≤ tipPayment.amount * s.platformFeeBps then "uint64 overflow"
  else if tipPayment.amount < feeOf tipPayment.amount s.platformFeeBps then
    "uint64 underflow"
  else "uint64 overflow"

/-- `sendTip` (contract.algo.ts lines 344-413).  The second component of a
successful result is the list of inner payments submitted (receiver, amount):
one payment of the creator share when a revenue split is active, otherwise one
payment of the full after-fee amount; the computed collaborator share is never
paid out (the source only notes it would need a separate method). -/
def sendTip (ctx : Ctx) (s : TipJarState) (creator : Addr) (message : String)
    (tipPayment : PaymentTxn) :
    Except String (TipJarState × List (Addr × Nat) × String) :=
  let tipAmount := tipPayment.amount
  let feeAmount := feeOf tipAmount s.platformFeeBps
  let afterFee := tipAmount - feeAmount
  let pr := getProfile s.locals creator
  let splitPercent := pr.revSplitPercent
  let collaboratorAmount := afterFee * splitPercent / 100
  let creatorAmount := afterFee - collaboratorAmount
  if s.isPaused = 0 ∧ pr.isRegistered = 1 ∧
     s.minTipAmount ≤ tipAmount ∧ tipPayment.receiver = ctx.appAddress ∧
     tipPayment.closeRemainderTo = zeroAddress ∧ tipPayment.rekeyTo = zeroAddress ∧
     ctx.sender ≠ creator ∧
     tipAmount * s.platformFeeBps < U64LIMIT ∧ feeAmount ≤ tipAmount ∧
     s.totalFeesAccumulated + feeAmount < U64LIMIT ∧
     afterFee * splitPercent < U64LIMIT ∧ collaboratorAmount ≤ afterFee ∧
     pr.tipsReceived + tipAmount < U64LIMIT ∧ pr.tipCount + 1 < U64LIMIT ∧
     s.totalTipsProcessed + tipAmount < U64LIMIT ∧ s.totalTipCount + 1 < U64LIMIT then
    Except.ok ({ s with
        totalFeesAccumulated := s.totalFeesAccumulated + feeAmount,
        totalTipsProcessed := s.totalTipsProcessed + tipAmount,
        totalTipCount := s.totalTipCount + 1,
        locals := setProfile s.locals creator
          { pr with tipsReceived := pr.tipsReceived + tipAmount,
                    tipCount := pr.tipCount + 1 } },
      (if 0 < splitPercent then [(creator, creatorAmount)] else [(creator, afterFee)]),
      "Tip of " ++ toString tipAmount ++ " microALGO sent to creator")
  else Except.error (sendTipErr ctx s creator tipPayment)

/-- Tier name chosen by `mintBadge`. -/
def tierNameOf (badgeTier : Nat) : String :=
  if badgeTier = 1 then "Bronze"
  else if badgeTier = 2 then "Silver"
  else if badgeTier = 3 then "Gold"
  else "Diamond"

/-- First failing assert of `mintBadge`, in source order. -/
def mintBadgeErr (ctx : Ctx) (s : TipJarState) (badgeTier : Nat)
    (creatorAddr : Addr) : String :=
  if s.isPaused ≠ 0 then "Contract is paused"
  else if ¬(ctx.sender = s.adminAddress ∨ ctx.sender = creatorAddr) then
    "Only admin or creator can mint badges"
  else if ¬(1 ≤ badgeTier ∧ badgeTier ≤ 4) then "Invalid badge tier"
  else "Creator is not registered"

/-- `mintBadge` (contract.algo.ts lines 426-470).  A successful result carries
the payments submitted (always none), the names of the assets created by the
inner `assetConfig` transaction, and the return string.  The `supporter`
argument appears in the signature but is read nowhere in the body. -/
def mintBadge (ctx : Ctx) (s : TipJarState) (supporter : Addr) (badgeTier : Nat)
    (creatorAddr : Addr) :
    Except String (TipJarState × List (Addr × Nat) × List String × String) :=
  if s.isPaused = 0 ∧ (ctx.sender = s.adminAddress ∨ ctx.sender = creatorAddr) ∧
     1 ≤ badgeTier ∧ badgeTier ≤ 4 ∧
     (getProfile s.locals creatorAddr).isRegistered = 1 ∧
     s.totalBadgesMinted + 1 < U64LIMIT then
    Except.ok ({ s with totalBadgesMinted := s.totalBadgesMinted + 1 },
      [], ["TipJar " ++ tierNameOf badgeTier ++ " Badge"],
      tierNameOf badgeTier ++ " badge minted successfully")
  else Except.error (mintBadgeErr ctx s badgeTier creatorAddr)

/-- `setMinTipAmount` (admin-only). -/
def setMinTipAmount (ctx : Ctx) (s : TipJarState) (newMin : Nat) :
    Except String (TipJarState × String) :=
  if ctx.sender = s.adminAddress ∧ 10000 ≤ newMin then
    Except.ok ({ s with minTipAmount := newMin }, "Minimum tip amount updated")
  else Except.error
    (if ctx.sender ≠ s.adminAddress then adminErr
     else "Minimum tip must be at least 0.01 ALGO (10_000 microALGO)")

/-- `setPlatformFee` (admin-only, fee capped at 1000 bps). -/
def setPlatformFee (ctx : Ctx) (s : TipJarState) (newFeeBps : Nat) :
    Except String (TipJarState × String) :=
  if ctx.sender = s.adminAddress ∧ newFeeBps ≤ 1000 then
    Except.ok ({ s with platformFeeBps := newFeeBps }, "Platform fee updated")
  else Except.error
    (if ctx.sender ≠ s.adminAddress then adminErr else "Fee cannot exceed 10%")

/-- First failing assert / arithmetic fault of `withdrawPlatformFees`. -/
def withdrawPlatformFeesErr (ctx : Ctx) (contractBalance : Nat) (s : TipJarState)
    (amount : Nat) : String :=
  if ctx.sender ≠ s.adminAddress then adminErr
  else if amount = 0 then "Withdrawal amount must be positive"
  else if s.totalFeesAccumulated < amount then "Amount exceeds accumulated fees"
  else if contractBalance < amount then "uint64 underflow"
  else "Withdrawal would leave contract below minimum balance"

/-- `withdrawPlatformFees` (admin-only); `contractBalance` is the contract
account's ledger balance (`Global.currentApplicationAddress.balance`). -/
def withdrawPlatformFees (ctx : Ctx) (contractBalance : Nat) (s : TipJarState)
    (amount : Nat) :
    Except String (TipJarState × List (Addr × Nat) × String) :=
  if ctx.sender = s.adminAddress ∧ 0 < amount ∧ amount ≤ s.totalFeesAccumulated ∧
     amount ≤ contractBalance ∧ MIN_CONTRACT_BALANCE ≤ contractBalance - amount then
    Except.ok ({ s with totalFeesAccumulated := s.totalFeesAccumulated - amount },
      [(ctx.sender, amount)], "Platform fees withdrawn")
  else Except.error (withdrawPlatformFeesErr ctx contractBalance s amount)

/-- `setBadgeThresholds` (admin-only, strictly ascending). -/
def setBadgeThresholds (ctx : Ctx) (s : TipJarState)
    (bronze silver gold diamond : Nat) :
    Except String (TipJarState × String) :=
  if ctx.sender = s.adminAddress ∧ bronze < silver ∧ silver < gold ∧ gold < diamond then
    Except.ok ({ s with bronzeThreshold := bronze, silverThreshold := silver,
                        goldThreshold := gold, diamondThreshold := diamond },
      "Badge thresholds updated")
  else Except.error
    (if ctx.sender ≠ s.adminAddress then adminErr else "Thresholds must be ascending")

/-- `getPlatformStats`: read-only getter. -/
def getPlatformStats (s : TipJarState) : Nat := s.totalTipsProcessed

/-- One application call to the contract, with its sender and arguments. -/
inductive Op where
  | opRegister (sender : Addr) (name bio category profileImage : String)
  | opUpdateProfile (sender : Addr) (name bio category profileImage : String)
  | opSetRevenueSplit (sender : Addr) (collaboratorAddr collaboratorName : String)
      (splitPercent : Nat)
  | opRemoveRevenueSplit (sender : Addr)
  | opSendTip (sender creator : Addr) (message : String) (tipPayment : PaymentTxn)
  | opMintBadge (sender supporter : Addr) (badgeTier : Nat) (creatorAddr : Addr)
  | opPause (sender : Addr)
  | opUnpause (sender : Addr)
  | opTransferAdmin (sender newAdmin : Addr)
  | opAcceptAdmin (sender : Addr)
  | opSetMinTipAmount (sender : Addr) (newMin : Nat)
  | opSetPlatformFee (sender : Addr) (newFeeBps : Nat)
  | opWithdrawPlatformFees (sender : Addr) (contractBalance amount : Nat)
  | opSetBadgeThresholds (sender : Addr) (bronze silver gold diamond : Nat)
deriving Repr, DecidableEq

/-- New state of a call: the `.ok` state, or the pre-state when the call
rejected (atomicity: a failed call leaves no trace). -/
def applyOr {α : Type} (s : TipJarState) : Except String (TipJarState × α) → TipJarState
  | .ok x => x.1
  | .error _ => s

/-- Apply one call to the state; rejected calls leave the state unchanged. -/
def step (appAddress : Addr) (s : TipJarState) : Op → TipJarState
  | .opRegister sender name bio category profileImage =>
    applyOr s (registerCreator ⟨sender, appAddress⟩ s name bio category profileImage)
  | .opUpdateProfile sender name bio category profileImage =>
    applyOr s (updateProfile ⟨sender, appAddress⟩ s name bio category profileImage)
  | .opSetRevenueSplit sender collaboratorAddr collaboratorName splitPercent =>
    applyOr s (setRevenueSplit ⟨sender, appAddress⟩ s collaboratorAddr collaboratorName splitPercent)
  | .opRemoveRevenueSplit sender =>
    applyOr s (removeRevenueSplit ⟨sender, appAddress⟩ s)
  | .opSendTip sender creator message tipPayment =>
    applyOr s (sendTip ⟨sender, appAddress⟩ s creator message tipPayment)
  | .opMintBadge sender supporter badgeTier creatorAddr =>
    applyOr s (mintBadge ⟨sender, appAddress⟩ s supporter badgeTier creatorAddr)
  | .opPause sender => applyOr s (pauseContract ⟨sender, appAddress⟩ s)
  | .opUnpause sender => applyOr s (unpauseContract ⟨sender, appAddress⟩ s)
  | .opTransferAdmin sender newAdmin =>
    applyOr s (transferAdmin ⟨sender, appAddress⟩ s newAdmin)
  | .opAcceptAdmin sender => applyOr s (acceptAdmin ⟨sender, appAddress⟩ s)
  | .opSetMinTipAmount sender newMin =>
    applyOr s (setMinTipAmount ⟨sender, appAddress⟩ s newMin)
  | .opSetPlatformFee sender newFeeBps =>
    applyOr s (setPlatformFee ⟨sender, appAddress⟩ s newFeeBps)
  | .opWithdrawPlatformFees sender contractBalance amount =>
    applyOr s (withdrawPlatformFees ⟨sender, appAddress⟩ contractBalance s amount)
  | .opSetBadgeThresholds sender bronze silver gold diamond =>
    applyOr s (setBadgeThresholds ⟨sender, appAddress⟩ s bronze silver gold diamond)

/-- Run a sequence of calls from a state. -/
def execOps (appAddress : Addr) (s : TipJarState) (ops : List Op) : TipJarState :=
  ops.foldl (step appAddress) s

/-- Whether a call result is a success. -/
def isOk {α : Type} : Except String α → Bool
  | .ok _ => true
  | .error _ => false

/-- Sum of `tipsReceived` over every profile in the local-state store. -/
def sumTipsReceived (locals : List (Addr × Profile)) : Nat :=
  (locals.map (fun p => p.2.tipsReceived)).sum

/-- Sum of `tipCount` over every profile in the local-state store. -/
def sumTipCount (locals : List (Addr × Profile)) : Nat :=
  (locals.map (fun p => p.2.tipCount)).sum

/-- Whether a call is an `acceptAdmin` call. -/
def isAcceptAdminOp : Op → Bool
  | .opAcceptAdmin _ => true
  | _ => false

/-- A 58-character account address string, for concrete runs. -/
def addr58 : String := String.mk (List.replicate 58 (Char.ofNat 75))

/-- Concrete state: fresh contract with one registered creator `"CREATOR"`. -/
def stReg : TipJarState :=
  execOps "APP" (createApplication "ADMIN")
    [Op.opRegister "CREATOR" "Alice" "Artist bio" "art" ""]

/-- Concrete state: registered creator `"CREATOR"` with a 20% revenue split. -/
def stSplit : TipJarState :=
  execOps "APP" (createApplication "ADMIN")
    [Op.opRegister "CREATOR" "Alice" "Artist bio" "art" "",
     Op.opSetRevenueSplit "CREATOR" addr58 "K" 20]

/-- Concrete state: a creator registered under the 58-character address itself. -/
def stSelf : TipJarState :=
  execOps "APP" (createApplication "ADMIN")
    [Op.opRegister addr58 "Alice" "Artist bio" "art" ""]

/-- A well-formed tip payment of the given amount to the contract `"APP"`. -/
def tipPay (amt : Nat) : PaymentTxn :=
  { amount := amt, receiver := "APP", closeRemainderTo := zeroAddress,
    rekeyTo := zeroAddress }

/-- The profile stored for `"CREATOR"` in `stReg`. -/
def regProfile : Profile :=
  { creatorName := "Alice", creatorBio := "Artist bio", creatorCategory := "art",
    tipsReceived := 0, tipCount := 0, isRegistered := 1, profileImageUrl := "",
    revSplitAddress := "", revSplitPercent := 0, revSplitName := "" }

/-- The profile stored for `"CREATOR"` in `stSplit`. -/
def splitProfile : Profile :=
  { regProfile with
      revSplitAddress := addr58, revSplitName := "K", revSplitPercent := 20 }

/-- Result of tipping 2000000 microALGO to `"CREATOR"` in `stReg`. -/
def xC3res : TipJarState × List (Addr × Nat) × String :=
  ({ stReg with
      totalFeesAccumulated := 20000, totalTipsProcessed := 2000000,
      totalTipCount := 1,
      locals := [("CREATOR", { regProfile with tipsReceived := 2000000, tipCount := 1 })] },
   [("CREATOR", 1980000)], "Tip of 2000000 microALGO sent to creator")

/-- Result of tipping 1000000 microALGO to `"CREATOR"` in `stSplit`. -/
def xC4res : TipJarState × List (Addr × Nat) × String :=
  ({ stSplit with
      totalFeesAccumulated := 10000, totalTipsProcessed := 1000000,
      totalTipCount := 1,
      locals := [("CREATOR", { splitProfile with tipsReceived := 1000000, tipCount := 1 })] },
   [("CREATOR", 792000)], "Tip of 1000000 microALGO sent to creator")

/-- Concrete state: fresh contract paused by the admin. -/
def stPaused : TipJarState :=
  execOps "APP" (createApplication "ADMIN") [Op.opPause "ADMIN"]

/-- Concrete state: fresh contract with an admin transfer to `"NEWADMIN"` pending. -/
def stPend : TipJarState :=
  execOps "APP" (createApplication "ADMIN") [Op.opTransferAdmin "ADMIN" "NEWADMIN"]

/-- The conservation invariant: every stored profile is registered, and the
per-profile tip accumulators sum to the platform totals. -/
def ConsInv (s : TipJarState) : Prop :=
  (∀ e ∈ s.locals, e.2.isRegistered = 1) ∧
  sumTipsReceived s.locals = s.totalTipsProcessed ∧
  sumTipCount s.locals = s.totalTipCount

end TipJar

namespace TipJar

theorem ite_ok_inv {α : Type} {P : Prop} [Decidable P] {v : α} {e : String} {x : α}
    (h : (if P then Except.ok v else Except.error e) = .ok x) : P ∧ x = v := by
  split at h
  · rename_i hc
    cases h
    exact ⟨hc, rfl⟩
  · exact Except.noConfusion h

theorem ite_isOk {α : Type} (P : Prop) [Decidable P] (v : α) (e : String) :
    isOk (if P then Except.ok v else Except.error e) = true ↔ P := by
  split
  · rename_i hc
    simpa [isOk] using hc
  · rename_i hc
    simpa [isOk] using hc

theorem ite_error {α : Type} {P : Prop} [Decidable P] {v : α} {e : String}
    (hP : ¬P) : (if P then Except.ok v else Except.error e) = .error e := if_neg hP

theorem isOk_false_of_error {α : Type} {r : Except String α} {e : String}
    (h : r = .error e) : isOk r = false := by rw [h]; rfl

theorem getProfile_setProfile_same (l : List (Addr × Profile)) (a : Addr) (p : Profile) :
    getProfile (setProfile l a p) a = p := by
  induction l with
  | nil => simp [setProfile, getProfile]
  | cons hd tl ih =>
    obtain ⟨b, q⟩ := hd
    by_cases hb : b = a
    · simp [setProfile, getProfile, hb]
    · simp [setProfile, getProfile, hb, ih]

theorem getProfile_setProfile_ne (l : List (Addr × Profile)) {a a' : Addr} (p : Profile)
    (hne : a' ≠ a) : getProfile (setProfile l a' p) a = getProfile l a := by
  induction l with
  | nil => simp [setProfile, getProfile, hne]
  | cons hd tl ih =>
    obtain ⟨b, q⟩ := hd
    by_cases hb : b = a'
    · subst hb
      simp [setProfile, getProfile, hne]
    · simp only [setProfile, if_neg hb, getProfile]
      by_cases hba : b = a
      · simp [hba]
      · simp [hba, ih]

theorem sum_map_setProfile (f : Profile → Nat) (hf0 : f defaultProfile = 0)
    (l : List (Addr × Profile)) (a : Addr) (p : Profile) :
    ((setProfile l a p).map (fun e => f e.2)).sum + f (getProfile l a)
      = (l.map (fun e => f e.2)).sum + f p := by
  induction l with
  | nil => simp [setProfile, getProfile, hf0]
  | cons hd tl ih =>
    obtain ⟨b, q⟩ := hd
    by_cases hb : b = a
    · simp only [setProfile, if_pos hb, getProfile, List.map, List.sum_cons]
      omega
    · simp only [setProfile, if_neg hb, getProfile, List.map, List.sum_cons]
      omega

theorem mem_setProfile {l : List (Addr × Profile)} {a : Addr} {p : Profile}
    {x : Addr × Profile} : x ∈ setProfile l a p → x = (a, p) ∨ x ∈ l := by
  induction l with
  | nil =>
    intro hx
    simpa [setProfile] using hx
  | cons hd tl ih =>
    obtain ⟨b, q⟩ := hd
    intro hx
    by_cases hb : b = a
    · simp only [setProfile, if_pos hb, List.mem_cons] at hx
      rcases hx with hx | hx
      · exact Or.inl hx
      · exact Or.inr (List.mem_cons_of_mem _ hx)
    · simp only [setProfile, if_neg hb, List.mem_cons] at hx
      rcases hx with hx | hx
      · exact Or.inr (by simp [hx])
      · rcases ih hx with h | h
        · exact Or.inl h
        · exact Or.inr (List.mem_cons_of_mem _ h)

theorem getProfile_default_of_not_registered {l : List (Addr × Profile)} {a : Addr}
    (hall : ∀ e ∈ l, e.2.isRegistered = 1)
    (hnr : (getProfile l a).isRegistered ≠ 1) : getProfile l a = defaultProfile := by
  induction l with
  | nil => rfl
  | cons hd tl ih =>
    obtain ⟨b, q⟩ := hd
    by_cases hb : b = a
    · exfalso
      apply hnr
      simp only [getProfile, if_pos hb]
      exact hall (b, q) (by simp)
    · simp only [getProfile, if_neg hb] at hnr ⊢
      exact ih (fun e he => hall e (List.mem_cons_of_mem _ he)) hnr

theorem feeOf_le {amt bps : Nat} (hbps : bps ≤ 1000) : feeOf amt bps ≤ amt := by
  unfold feeOf
  calc amt * bps / 10000 ≤ amt * 10000 / 10000 :=
        Nat.div_le_div_right (Nat.mul_le_mul_left amt (by omega))
    _ = amt := Nat.mul_div_cancel amt (by norm_num)

theorem ten_feeOf_le {amt bps : Nat} (hbps : bps ≤ 1000) : 10 * feeOf amt bps ≤ amt := by
  have h1 : feeOf amt bps ≤ amt * 1000 / 10000 := by
    unfold feeOf
    exact Nat.div_le_div_right (Nat.mul_le_mul_left amt hbps)
  have h2 : amt * 1000 / 10000 = amt / 10 := by
    have : (10000 : Nat) = 10 * 1000 := by norm_num
    rw [this]
    exact Nat.mul_div_mul_right amt 10 (by norm_num)
  have h3 : 10 * (amt / 10) ≤ amt := by
    have := Nat.div_mul_le_self amt 10
    omega
  omega

theorem split_le {af p : Nat} (hp : p ≤ 50) : af * p / 100 ≤ af := by
  calc af * p / 100 ≤ af * 100 / 100 :=
        Nat.div_le_div_right (Nat.mul_le_mul_left af (by omega))
    _ = af := Nat.mul_div_cancel af (by norm_num)

theorem two_split_le {af p : Nat} (hp : p ≤ 50) : 2 * (af * p / 100) ≤ af := by
  have h1 : af * p / 100 ≤ af * 50 / 100 :=
    Nat.div_le_div_right (Nat.mul_le_mul_left af hp)
  have h2 : af * 50 / 100 = af / 2 := by
    have : (100 : Nat) = 2 * 50 := by norm_num
    rw [this]
    exact Nat.mul_div_mul_right af 2 (by norm_num)
  have h3 : 2 * (af / 2) ≤ af := by
    have := Nat.div_mul_le_self af 2
    omega
  omega

end TipJar

namespace TipJar

/-- C1: if the attached payment's amount is below `minTipAmount`, or the target
creator is not registered, or the payment's receiver is not the contract's own
account, or its close-remainder-to field is non-zero, or its rekey-to field is
non-zero, or the caller equals the target creator, then `sendTip` rejects and
the state is unchanged (so no stats, no counters, no fee accumulation, and no
outgoing transfer, which exists only in a successful result). -/
theorem claim_C1 (ctx : Ctx) (s : TipJarState) (creator : Addr)
    (message : String) (pay : PaymentTxn)
    (hbad : pay.amount < s.minTipAmount ∨
        (getProfile s.locals creator).isRegistered ≠ 1 ∨
        pay.receiver ≠ ctx.appAddress ∨
        pay.closeRemainderTo ≠ zeroAddress ∨
        pay.rekeyTo ≠ zeroAddress ∨
        ctx.sender = creator) :
    isOk (sendTip ctx s creator message pay) = false ∧
    step ctx.appAddress s (Op.opSendTip ctx.sender creator message pay) = s := by
  cases hres : sendTip ctx s creator message pay with
  | ok x =>
    exfalso
    obtain ⟨hc, -⟩ := ite_ok_inv (by simpa only [sendTip] using hres)
    rcases hbad with hb | hb | hb | hb | hb | hb
    · exact absurd hc.2.2.1 (by omega)
    · exact hb hc.2.1
    · exact hb hc.2.2.2.1
    · exact hb hc.2.2.2.2.1
    · exact hb hc.2.2.2.2.2.1
    · exact hc.2.2.2.2.2.2.1 hb
  | error e =>
    refine ⟨rfl, ?_⟩
    simp only [step]
    show applyOr s (sendTip ctx s creator message pay) = s
    rw [hres]
    rfl

/-- C1 witness: a 50-microALGO tip (below the 100000 minimum, and to an
unregistered target) on a fresh contract is rejected with no state change. -/
theorem claim_C1_witness :
    (tipPay 50).amount < (createApplication "ADMIN").minTipAmount ∧
    (isOk (sendTip ⟨"SUPPORTER", "APP"⟩ (createApplication "ADMIN") "CREATOR" "gm"
        (tipPay 50)) = false ∧
     step "APP" (createApplication "ADMIN")
        (Op.opSendTip "SUPPORTER" "CREATOR" "gm" (tipPay 50)) = createApplication "ADMIN") :=
  ⟨by decide,
   claim_C1 ⟨"SUPPORTER", "APP"⟩ (createApplication "ADMIN") "CREATOR" "gm" (tipPay 50)
     (Or.inl (by decide))⟩

/-- C3: in a successful `sendTip` with `platformFeeBps ≤ 1000`, the fee is
`floor(amount * platformFeeBps / 10000)`, `fee + afterFee = amount` exactly,
`10 * fee ≤ amount` (the fee is at most 10% of the amount), the fee is
accumulated into `totalFeesAccumulated`, and the creator's stats grow by the
gross amount and one tip. -/
theorem claim_C3 (ctx : Ctx) (s : TipJarState) (creator : Addr)
    (message : String) (pay : PaymentTxn) (x)
    (h : sendTip ctx s creator message pay = .ok x)
    (hbps : s.platformFeeBps ≤ 1000) :
    pay.amount * s.platformFeeBps / 10000
        + (pay.amount - pay.amount * s.platformFeeBps / 10000) = pay.amount ∧
    10 * (pay.amount * s.platformFeeBps / 10000) ≤ pay.amount ∧
    x.1.totalFeesAccumulated
        = s.totalFeesAccumulated + pay.amount * s.platformFeeBps / 10000 ∧
    (getProfile x.1.locals creator).tipsReceived
        = (getProfile s.locals creator).tipsReceived + pay.amount ∧
    (getProfile x.1.locals creator).tipCount
        = (getProfile s.locals creator).tipCount + 1 := by
  obtain ⟨hc, hx⟩ := ite_ok_inv (by simpa only [sendTip] using h)
  subst hx
  have hfee : feeOf pay.amount s.platformFeeBps ≤ pay.amount := feeOf_le hbps
  refine ⟨?_, ten_feeOf_le hbps, rfl, ?_, ?_⟩
  · unfold feeOf at hfee
    omega
  · simp [getProfile_setProfile_same]
  · simp [getProfile_setProfile_same]

end TipJar

namespace TipJar

/-- C3 witness: tipping 2000000 microALGO at `platformFeeBps = 100` in `stReg`
gives fee 20000, afterFee 1980000, `tipsReceived` +2000000 and `tipCount` +1. -/
theorem claim_C3_witness :
    sendTip ⟨"SUPPORTER", "APP"⟩ stReg "CREATOR" "gm" (tipPay 2000000) = .ok xC3res ∧
    stReg.platformFeeBps ≤ 1000 ∧
    ((tipPay 2000000).amount * stReg.platformFeeBps / 10000
        + ((tipPay 2000000).amount
            - (tipPay 2000000).amount * stReg.platformFeeBps / 10000)
        = (tipPay 2000000).amount ∧
     10 * ((tipPay 2000000).amount * stReg.platformFeeBps / 10000)
        ≤ (tipPay 2000000).amount ∧
     xC3res.1.totalFeesAccumulated
        = stReg.totalFeesAccumulated
            + (tipPay 2000000).amount * stReg.platformFeeBps / 10000 ∧
     (getProfile xC3res.1.locals "CREATOR").tipsReceived
        = (getProfile stReg.locals "CREATOR").tipsReceived + (tipPay 2000000).amount ∧
     (getProfile xC3res.1.locals "CREATOR").tipCount
        = (getProfile stReg.locals "CREATOR").tipCount + 1) :=
  ⟨rfl, by decide,
   claim_C3 ⟨"SUPPORTER", "APP"⟩ stReg "CREATOR" "gm" (tipPay 2000000) xC3res
     rfl (by decide)⟩

/-- C4: in a successful `sendTip` whose target has an active split
`0 < p ≤ 50`, the collaborator share is `floor(afterFee * p / 100)`, the
creator share is the rest, the two add up to `afterFee` exactly, the
collaborator share is at most half of `afterFee`, and the single submitted
payment carries the creator share. -/
theorem claim_C4 (ctx : Ctx) (s : TipJarState) (creator : Addr)
    (message : String) (pay : PaymentTxn) (x)
    (h : sendTip ctx s creator message pay = .ok x)
    (hp0 : 0 < (getProfile s.locals creator).revSplitPercent)
    (hp50 : (getProfile s.locals creator).revSplitPercent ≤ 50) :
    x.2.1 = [(creator,
      (pay.amount - feeOf pay.amount s.platformFeeBps)
        - (pay.amount - feeOf pay.amount s.platformFeeBps)
            * (getProfile s.locals creator).revSplitPercent / 100)] ∧
    (pay.amount - feeOf pay.amount s.platformFeeBps)
        * (getProfile s.locals creator).revSplitPercent / 100
      + ((pay.amount - feeOf pay.amount s.platformFeeBps)
          - (pay.amount - feeOf pay.amount s.platformFeeBps)
              * (getProfile s.locals creator).revSplitPercent / 100)
      = pay.amount - feeOf pay.amount s.platformFeeBps ∧
    2 * ((pay.amount - feeOf pay.amount s.platformFeeBps)
          * (getProfile s.locals creator).revSplitPercent / 100)
      ≤ pay.amount - feeOf pay.amount s.platformFeeBps := by
  obtain ⟨hc, hx⟩ := ite_ok_inv (by simpa only [sendTip] using h)
  subst hx
  have hle : (pay.amount - feeOf pay.amount s.platformFeeBps)
      * (getProfile s.locals creator).revSplitPercent / 100
      ≤ pay.amount - feeOf pay.amount s.platformFeeBps := split_le hp50
  refine ⟨?_, by omega, two_split_le hp50⟩
  simp only [if_pos hp0]

/-- C4 witness: with a 20% split and a 1000000-microALGO tip at 1% fee
(`afterFee = 990000`), the collaborator share is 198000 and the creator share
792000, which is exactly the single payment submitted. -/
theorem claim_C4_witness :
    sendTip ⟨"SUPPORTER", "APP"⟩ stSplit "CREATOR" "gm" (tipPay 1000000) = .ok xC4res ∧
    0 < (getProfile stSplit.locals "CREATOR").revSplitPercent ∧
    (getProfile stSplit.locals "CREATOR").revSplitPercent ≤ 50 ∧
    (xC4res.2.1 = [("CREATOR",
        ((tipPay 1000000).amount - feeOf (tipPay 1000000).amount stSplit.platformFeeBps)
          - ((tipPay 1000000).amount - feeOf (tipPay 1000000).amount stSplit.platformFeeBps)
              * (getProfile stSplit.locals "CREATOR").revSplitPercent / 100)] ∧
     ((tipPay 1000000).amount - feeOf (tipPay 1000000).amount stSplit.platformFeeBps)
          * (getProfile stSplit.locals "CREATOR").revSplitPercent / 100
        + (((tipPay 1000000).amount - feeOf (tipPay 1000000).amount stSplit.platformFeeBps)
            - ((tipPay 1000000).amount - feeOf (tipPay 1000000).amount stSplit.platformFeeBps)
                * (getProfile stSplit.locals "CREATOR").revSplitPercent / 100)
        = (tipPay 1000000).amount - feeOf (tipPay 1000000).amount stSplit.platformFeeBps ∧
     2 * (((tipPay 1000000).amount - feeOf (tipPay 1000000).amount stSplit.platformFeeBps)
            * (getProfile stSplit.locals "CREATOR").revSplitPercent / 100)
        ≤ (tipPay 1000000).amount - feeOf (tipPay 1000000).amount stSplit.platformFeeBps) :=
  ⟨rfl, by decide, by decide,
   claim_C4 ⟨"SUPPORTER", "APP"⟩ stSplit "CREATOR" "gm" (tipPay 1000000) xC4res
     rfl (by decide) (by decide)⟩

/-- C5: when the target has an active revenue split, a successful `sendTip`
submits exactly one payment, of the creator share to the creator; no payment
to the collaborator (or anyone else) is ever submitted, so the computed
collaborator share stays in the contract's balance. -/
theorem claim_C5 (ctx : Ctx) (s : TipJarState) (creator : Addr)
    (message : String) (pay : PaymentTxn) (x)
    (h : sendTip ctx s creator message pay = .ok x)
    (hp0 : 0 < (getProfile s.locals creator).revSplitPercent) :
    x.2.1 = [(creator,
      (pay.amount - feeOf pay.amount s.platformFeeBps)
        - (pay.amount - feeOf pay.amount s.platformFeeBps)
            * (getProfile s.locals creator).revSplitPercent / 100)] ∧
    x.2.1.length = 1 ∧
    (∀ q ∈ x.2.1, q.1 = creator) := by
  obtain ⟨hc, hx⟩ := ite_ok_inv (by simpa only [sendTip] using h)
  subst hx
  refine ⟨by simp only [if_pos hp0], ?_, ?_⟩
  · simp [if_pos hp0]
  · intro q hq
    simp only [if_pos hp0, List.mem_singleton] at hq
    rw [hq]

/-- C5 witness: in the 20% split scenario the only payment submitted is the
creator share to the creator. -/
theorem claim_C5_witness :
    sendTip ⟨"SUPPORTER", "APP"⟩ stSplit "CREATOR" "ty" (tipPay 1000000) = .ok xC4res ∧
    0 < (getProfile stSplit.locals "CREATOR").revSplitPercent ∧
    (xC4res.2.1 = [("CREATOR",
        ((tipPay 1000000).amount - feeOf (tipPay 1000000).amount stSplit.platformFeeBps)
          - ((tipPay 1000000).amount - feeOf (tipPay 1000000).amount stSplit.platformFeeBps)
              * (getProfile stSplit.locals "CREATOR").revSplitPercent / 100)] ∧
     xC4res.2.1.length = 1 ∧
     (∀ q ∈ xC4res.2.1, q.1 = "CREATOR")) :=
  ⟨rfl, by decide,
   claim_C5 ⟨"SUPPORTER", "APP"⟩ stSplit "CREATOR" "ty" (tipPay 1000000) xC4res
     rfl (by decide)⟩

/-- C10: `mintBadge` never reads its `supporter` argument: two calls differing
only in the supporter are the same call (same rejection or same success, same
state, same minted token, same return), and a successful call submits no
payment at all (the minted token is never transferred), creates exactly one
asset named after the tier, and increments `totalBadgesMinted` by one. -/
theorem claim_C10 (ctx : Ctx) (s : TipJarState) (sup1 sup2 : Addr)
    (badgeTier : Nat) (creatorAddr : Addr) (x) :
    mintBadge ctx s sup1 badgeTier creatorAddr
      = mintBadge ctx s sup2 badgeTier creatorAddr ∧
    (mintBadge ctx s sup1 badgeTier creatorAddr = .ok x →
      x.2.1 = [] ∧
      x.2.2.1 = ["TipJar " ++ tierNameOf badgeTier ++ " Badge"] ∧
      x.1 = { s with totalBadgesMinted := s.totalBadgesMinted + 1 }) := by
  refine ⟨rfl, fun h => ?_⟩
  obtain ⟨-, hx⟩ := ite_ok_inv (by simpa only [mintBadge] using h)
  subst hx
  exact ⟨rfl, rfl, rfl⟩

/-- C10 witness: minting a tier-2 badge for two different supporters is the
same successful call, with no payment, one `"TipJar Silver Badge"` asset, and
`totalBadgesMinted` going to 1. -/
theorem claim_C10_witness :
    mintBadge ⟨"ADMIN", "APP"⟩ stReg "SUP1" 2 "CREATOR"
      = mintBadge ⟨"ADMIN", "APP"⟩ stReg "SUP2" 2 "CREATOR" ∧
    (({ stReg with totalBadgesMinted := stReg.totalBadgesMinted + 1 },
        ([] : List (Addr × Nat)), ["TipJar Silver Badge"],
        "Silver badge minted successfully").2.1 = [] ∧
     ({ stReg with totalBadgesMinted := stReg.totalBadgesMinted + 1 },
        ([] : List (Addr × Nat)), ["TipJar Silver Badge"],
        "Silver badge minted successfully").2.2.1
       = ["TipJar " ++ tierNameOf 2 ++ " Badge"] ∧
     ({ stReg with totalBadgesMinted := stReg.totalBadgesMinted + 1 },
        ([] : List (Addr × Nat)), ["TipJar Silver Badge"],
        "Silver badge minted successfully").1
       = { stReg with totalBadgesMinted := stReg.totalBadgesMinted + 1 }) :=
  ⟨(claim_C10 ⟨"ADMIN", "APP"⟩ stReg "SUP1" "SUP2" 2 "CREATOR"
      ({ stReg with totalBadgesMinted := stReg.totalBadgesMinted + 1 },
        [], ["TipJar Silver Badge"], "Silver badge minted successfully")).1,
   (claim_C10 ⟨"ADMIN", "APP"⟩ stReg "SUP1" "SUP2" 2 "CREATOR"
      ({ stReg with totalBadgesMinted := stReg.totalBadgesMinted + 1 },
        [], ["TipJar Silver Badge"], "Silver badge minted successfully")).2 rfl⟩

end TipJar

namespace TipJar

theorem ite_isOk_false {α : Type} {P : Prop} [Decidable P] {v : α} {e : String}
    (hP : ¬P) : isOk (if P then Except.ok v else Except.error e) = false := by
  rw [ite_error hP]
  rfl

/-- C6: while the contract is paused, `registerCreator`, `sendTip`,
`setRevenueSplit` and `mintBadge` all reject (for every caller and argument),
while `getPlatformStats` still answers and the admin can still unpause. -/
theorem claim_C6 (s : TipJarState) (hp : s.isPaused = 1) :
    (∀ ctx name bio category profileImage,
        isOk (registerCreator ctx s name bio category profileImage) = false) ∧
    (∀ ctx creator message pay, isOk (sendTip ctx s creator message pay) = false) ∧
    (∀ ctx collaboratorAddr collaboratorName splitPercent,
        isOk (setRevenueSplit ctx s collaboratorAddr collaboratorName splitPercent) = false) ∧
    (∀ ctx supporter badgeTier creatorAddr,
        isOk (mintBadge ctx s supporter badgeTier creatorAddr) = false) ∧
    getPlatformStats s = s.totalTipsProcessed ∧
    (∀ ctx : Ctx, ctx.sender = s.adminAddress →
        unpauseContract ctx s = .ok ({ s with isPaused := 0 }, "Contract unpaused")) := by
  refine ⟨?_, ?_, ?_, ?_, rfl, ?_⟩
  · intro ctx name bio category profileImage
    simp only [registerCreator]
    exact ite_isOk_false (by rintro ⟨h0, -⟩; omega)
  · intro ctx creator message pay
    simp only [sendTip]
    exact ite_isOk_false (by rintro ⟨h0, -⟩; omega)
  · intro ctx collaboratorAddr collaboratorName splitPercent
    simp only [setRevenueSplit]
    exact ite_isOk_false (by rintro ⟨h0, -⟩; omega)
  · intro ctx supporter badgeTier creatorAddr
    simp only [mintBadge]
    exact ite_isOk_false (by rintro ⟨h0, -⟩; omega)
  · intro ctx hadm
    unfold unpauseContract
    rw [if_pos hadm]

/-- C6 witness: in the concretely paused state, registering rejects while the
admin's unpause succeeds. -/
theorem claim_C6_witness :
    stPaused.isPaused = 1 ∧
    isOk (registerCreator ⟨"BOB", "APP"⟩ stPaused "B" "some bio" "cat" "") = false ∧
    unpauseContract ⟨"ADMIN", "APP"⟩ stPaused
      = .ok ({ stPaused with isPaused := 0 }, "Contract unpaused") :=
  ⟨by decide,
   (claim_C6 stPaused (by decide)).1 ⟨"BOB", "APP"⟩ "B" "some bio" "cat" "",
   (claim_C6 stPaused (by decide)).2.2.2.2.2 ⟨"ADMIN", "APP"⟩ (by decide)⟩

/-- C9 counterexample: a registered creator whose own address is the 58-char
string `addr58` calls `setRevenueSplit` naming themselves as collaborator, and
the call succeeds — the claim says it must reject with a self-reference
error. -/
theorem claim_C9_counterexample :
    isOk (setRevenueSplit ⟨addr58, "APP"⟩ stSelf addr58 "K" 20) = true := by decide

/-- C9 (amended): `setRevenueSplit` performs no self-collaborator check: for a
registered caller with the contract not paused, a call whose collaborator
address equals the caller's own address succeeds whenever `1 ≤ percent ≤ 50`,
the address string has length 58, and the name is non-empty and at most 50
characters, and it stores that self-referencing split configuration. -/
theorem claim_C9_amended (ctx : Ctx) (s : TipJarState) (collaboratorName : String)
    (splitPercent : Nat)
    (hpause : s.isPaused = 0)
    (hreg : (getProfile s.locals ctx.sender).isRegistered = 1)
    (h1 : 1 ≤ splitPercent) (h50 : splitPercent ≤ 50)
    (hlen : ctx.sender.length = ADDR_LEN)
    (hn0 : 0 < collaboratorName.length)
    (hn50 : collaboratorName.length ≤ MAX_COLLAB_NAME_LEN) :
    setRevenueSplit ctx s ctx.sender collaboratorName splitPercent
      = .ok ({ s with
          locals := setProfile s.locals ctx.sender
            { getProfile s.locals ctx.sender with
                revSplitAddress := ctx.sender, revSplitName := collaboratorName,
                revSplitPercent := splitPercent } },
        "Revenue split configured") := by
  unfold setRevenueSplit
  rw [if_pos ⟨hpause, hreg, h1, h50, hlen, hn0, hn50⟩]

/-- C9 witness: the amended statement at the concrete self-collaborator call. -/
theorem claim_C9_witness :
    setRevenueSplit ⟨addr58, "APP"⟩ stSelf addr58 "K" 20
      = .ok ({ stSelf with
          locals := setProfile stSelf.locals addr58
            { getProfile stSelf.locals addr58 with
                revSplitAddress := addr58, revSplitName := "K",
                revSplitPercent := 20 } },
        "Revenue split configured") :=
  claim_C9_amended ⟨addr58, "APP"⟩ stSelf "K" 20 (by decide) (by decide) (by decide)
    (by decide) (by decide) (by decide) (by decide)

end TipJar

namespace TipJar

theorem step_preserves_registered (app : Addr) (s : TipJarState) (a : Addr) (op : Op)
    (h : (getProfile s.locals a).isRegistered = 1) :
    (getProfile (step app s op).locals a).isRegistered = 1 := by
  cases op with
  | opRegister sender name bio category profileImage =>
    simp only [step]
    cases hres : registerCreator ⟨sender, app⟩ s name bio category profileImage with
    | error e => exact h
    | ok x =>
      obtain ⟨hc, hx⟩ := ite_ok_inv (by simpa only [registerCreator] using hres)
      subst hx
      dsimp only [applyOr]
      by_cases hsa : sender = a
      · subst hsa
        exact absurd h hc.2.1
      · rw [getProfile_setProfile_ne _ _ hsa]
        exact h
  | opUpdateProfile sender name bio category profileImage =>
    simp only [step]
    cases hres : updateProfile ⟨sender, app⟩ s name bio category profileImage with
    | error e => exact h
    | ok x =>
      obtain ⟨hc, hx⟩ := ite_ok_inv (by simpa only [updateProfile] using hres)
      subst hx
      dsimp only [applyOr]
      by_cases hsa : sender = a
      · subst hsa
        rw [getProfile_setProfile_same]
        exact hc.2.1
      · rw [getProfile_setProfile_ne _ _ hsa]
        exact h
  | opSetRevenueSplit sender collaboratorAddr collaboratorName splitPercent =>
    simp only [step]
    cases hres : setRevenueSplit ⟨sender, app⟩ s collaboratorAddr collaboratorName splitPercent with
    | error e => exact h
    | ok x =>
      obtain ⟨hc, hx⟩ := ite_ok_inv (by simpa only [setRevenueSplit] using hres)
      subst hx
      dsimp only [applyOr]
      by_cases hsa : sender = a
      · subst hsa
        rw [getProfile_setProfile_same]
        exact hc.2.1
      · rw [getProfile_setProfile_ne _ _ hsa]
        exact h
  | opRemoveRevenueSplit sender =>
    simp only [step]
    cases hres : removeRevenueSplit ⟨sender, app⟩ s with
    | error e => exact h
    | ok x =>
      obtain ⟨hc, hx⟩ := ite_ok_inv (by simpa only [removeRevenueSplit] using hres)
      subst hx
      dsimp only [applyOr]
      by_cases hsa : sender = a
      · subst hsa
        rw [getProfile_setProfile_same]
        exact hc.2
      · rw [getProfile_setProfile_ne _ _ hsa]
        exact h
  | opSendTip sender creator message tipPayment =>
    simp only [step]
    cases hres : sendTip ⟨sender, app⟩ s creator message tipPayment with
    | error e => exact h
    | ok x =>
      obtain ⟨hc, hx⟩ := ite_ok_inv (by simpa only [sendTip] using hres)
      subst hx
      dsimp only [applyOr]
      by_cases hsa : creator = a
      · subst hsa
        rw [getProfile_setProfile_same]
        exact hc.2.1
      · rw [getProfile_setProfile_ne _ _ hsa]
        exact h
  | opMintBadge sender supporter badgeTier creatorAddr =>
    simp only [step]
    cases hres : mintBadge ⟨sender, app⟩ s supporter badgeTier creatorAddr with
    | error e => exact h
    | ok x =>
      obtain ⟨-, hx⟩ := ite_ok_inv (by simpa only [mintBadge] using hres)
      subst hx
      exact h
  | opPause sender =>
    simp only [step]
    cases hres : pauseContract ⟨sender, app⟩ s with
    | error e => exact h
    | ok x =>
      obtain ⟨-, hx⟩ := ite_ok_inv (by simpa only [pauseContract] using hres)
      subst hx
      exact h
  | opUnpause sender =>
    simp only [step]
    cases hres : unpauseContract ⟨sender, app⟩ s with
    | error e => exact h
    | ok x =>
      obtain ⟨-, hx⟩ := ite_ok_inv (by simpa only [unpauseContract] using hres)
      subst hx
      exact h
  | opTransferAdmin sender newAdmin =>
    simp only [step]
    cases hres : transferAdmin ⟨sender, app⟩ s newAdmin with
    | error e => exact h
    | ok x =>
      obtain ⟨-, hx⟩ := ite_ok_inv (by simpa only [transferAdmin] using hres)
      subst hx
      exact h
  | opAcceptAdmin sender =>
    simp only [step]
    cases hres : acceptAdmin ⟨sender, app⟩ s with
    | error e => exact h
    | ok x =>
      obtain ⟨-, hx⟩ := ite_ok_inv (by simpa only [acceptAdmin] using hres)
      subst hx
      exact h
  | opSetMinTipAmount sender newMin =>
    simp only [step]
    cases hres : setMinTipAmount ⟨sender, app⟩ s newMin with
    | error e => exact h
    | ok x =>
      obtain ⟨-, hx⟩ := ite_ok_inv (by simpa only [setMinTipAmount] using hres)
      subst hx
      exact h
  | opSetPlatformFee sender newFeeBps =>
    simp only [step]
    cases hres : setPlatformFee ⟨sender, app⟩ s newFeeBps with
    | error e => exact h
    | ok x =>
      obtain ⟨-, hx⟩ := ite_ok_inv (by simpa only [setPlatformFee] using hres)
      subst hx
      exact h
  | opWithdrawPlatformFees sender contractBalance amount =>
    simp only [step]
    cases hres : withdrawPlatformFees ⟨sender, app⟩ contractBalance s amount with
    | error e => exact h
    | ok x =>
      obtain ⟨-, hx⟩ := ite_ok_inv (by simpa only [withdrawPlatformFees] using hres)
      subst hx
      exact h
  | opSetBadgeThresholds sender bronze silver gold diamond =>
    simp only [step]
    cases hres : setBadgeThresholds ⟨sender, app⟩ s bronze silver gold diamond with
    | error e => exact h
    | ok x =>
      obtain ⟨-, hx⟩ := ite_ok_inv (by simpa only [setBadgeThresholds] using hres)
      subst hx
      exact h

/-- C8: a `registerCreator` call by an already-registered account always
rejects and leaves the state (in particular `totalCreators` and the profile)
unchanged; a successful registration requires the account was not registered,
marks it registered, and increments `totalCreators` by one; and once an
account is registered, no call of any method ever unregisters it — so
registration and the `totalCreators` increment happen exactly once per
account. -/
theorem claim_C8 (app : Addr) (s : TipJarState) (a : Addr) :
    (∀ name bio category profileImage,
        (getProfile s.locals a).isRegistered = 1 →
        isOk (registerCreator ⟨a, app⟩ s name bio category profileImage) = false ∧
        step app s (Op.opRegister a name bio category profileImage) = s) ∧
    (∀ name bio category profileImage x,
        registerCreator ⟨a, app⟩ s name bio category profileImage = .ok x →
        (getProfile s.locals a).isRegistered ≠ 1 ∧
        (getProfile x.1.locals a).isRegistered = 1 ∧
        x.1.totalCreators = s.totalCreators + 1) ∧
    (∀ op, (getProfile s.locals a).isRegistered = 1 →
        (getProfile (step app s op).locals a).isRegistered = 1) := by
  refine ⟨?_, ?_, fun op h => step_preserves_registered app s a op h⟩
  · intro name bio category profileImage hreg
    cases hres : registerCreator ⟨a, app⟩ s name bio category profileImage with
    | ok x =>
      obtain ⟨hc, -⟩ := ite_ok_inv (by simpa only [registerCreator] using hres)
      exact absurd hreg hc.2.1
    | error e =>
      refine ⟨rfl, ?_⟩
      simp only [step]
      show applyOr s (registerCreator ⟨a, app⟩ s name bio category profileImage) = s
      rw [hres]
      rfl
  · intro name bio category profileImage x hres
    obtain ⟨hc, hx⟩ := ite_ok_inv (by simpa only [registerCreator] using hres)
    subst hx
    refine ⟨hc.2.1, ?_, rfl⟩
    dsimp only
    rw [getProfile_setProfile_same]

/-- C8 witness: in `stReg` the already-registered `"CREATOR"` cannot register
again, and a fresh account's registration marks it registered and bumps
`totalCreators`. -/
theorem claim_C8_witness :
    (getProfile stReg.locals "CREATOR").isRegistered = 1 ∧
    (isOk (registerCreator ⟨"CREATOR", "APP"⟩ stReg "Alice" "Artist bio" "art" "") = false ∧
     step "APP" stReg (Op.opRegister "CREATOR" "Alice" "Artist bio" "art" "") = stReg) :=
  ⟨by decide,
   (claim_C8 "APP" stReg "CREATOR").1 "Alice" "Artist bio" "art" "" (by decide)⟩

end TipJar

namespace TipJar

theorem step_preserves_admin (app : Addr) (s : TipJarState) (op : Op)
    (h : isAcceptAdminOp op = false) : (step app s op).adminAddress = s.adminAddress := by
  cases op with
  | opRegister sender name bio category profileImage =>
    simp only [step]
    cases hres : registerCreator ⟨sender, app⟩ s name bio category profileImage with
    | error e => rfl
    | ok x =>
      obtain ⟨-, hx⟩ := ite_ok_inv (by simpa only [registerCreator] using hres)
      subst hx
      rfl
  | opUpdateProfile sender name bio category profileImage =>
    simp only [step]
    cases hres : updateProfile ⟨sender, app⟩ s name bio category profileImage with
    | error e => rfl
    | ok x =>
      obtain ⟨-, hx⟩ := ite_ok_inv (by simpa only [updateProfile] using hres)
      subst hx
      rfl
  | opSetRevenueSplit sender collaboratorAddr collaboratorName splitPercent =>
    simp only [step]
    cases hres : setRevenueSplit ⟨sender, app⟩ s collaboratorAddr collaboratorName splitPercent with
    | error e => rfl
    | ok x =>
      obtain ⟨-, hx⟩ := ite_ok_inv (by simpa only [setRevenueSplit] using hres)
      subst hx
      rfl
  | opRemoveRevenueSplit sender =>
    simp only [step]
    cases hres : removeRevenueSplit ⟨sender, app⟩ s with
    | error e => rfl
    | ok x =>
      obtain ⟨-, hx⟩ := ite_ok_inv (by simpa only [removeRevenueSplit] using hres)
      subst hx
      rfl
  | opSendTip sender creator message tipPayment =>
    simp only [step]
    cases hres : sendTip ⟨sender, app⟩ s creator message tipPayment with
    | error e => rfl
    | ok x =>
      obtain ⟨-, hx⟩ := ite_ok_inv (by simpa only [sendTip] using hres)
      subst hx
      rfl
  | opMintBadge sender supporter badgeTier creatorAddr =>
    simp only [step]
    cases hres : mintBadge ⟨sender, app⟩ s supporter badgeTier creatorAddr with
    | error e => rfl
    | ok x =>
      obtain ⟨-, hx⟩ := ite_ok_inv (by simpa only [mintBadge] using hres)
      subst hx
      rfl
  | opPause sender =>
    simp only [step]
    cases hres : pauseContract ⟨sender, app⟩ s with
    | error e => rfl
    | ok x =>
      obtain ⟨-, hx⟩ := ite_ok_inv (by simpa only [pauseContract] using hres)
      subst hx
      rfl
  | opUnpause sender =>
    simp only [step]
    cases hres : unpauseContract ⟨sender, app⟩ s with
    | error e => rfl
    | ok x =>
      obtain ⟨-, hx⟩ := ite_ok_inv (by simpa only [unpauseContract] using hres)
      subst hx
      rfl
  | opTransferAdmin sender newAdmin =>
    simp only [step]
    cases hres : transferAdmin ⟨sender, app⟩ s newAdmin with
    | error e => rfl
    | ok x =>
      obtain ⟨-, hx⟩ := ite_ok_inv (by simpa only [transferAdmin] using hres)
      subst hx
      rfl
  | opAcceptAdmin sender => exact absurd h (by simp [isAcceptAdminOp])
  | opSetMinTipAmount sender newMin =>
    simp only [step]
    cases hres : setMinTipAmount ⟨sender, app⟩ s newMin with
    | error e => rfl
    | ok x =>
      obtain ⟨-, hx⟩ := ite_ok_inv (by simpa only [setMinTipAmount] using hres)
      subst hx
      rfl
  | opSetPlatformFee sender newFeeBps =>
    simp only [step]
    cases hres : setPlatformFee ⟨sender, app⟩ s newFeeBps with
    | error e => rfl
    | ok x =>
      obtain ⟨-, hx⟩ := ite_ok_inv (by simpa only [setPlatformFee] using hres)
      subst hx
      rfl
  | opWithdrawPlatformFees sender contractBalance amount =>
    simp only [step]
    cases hres : withdrawPlatformFees ⟨sender, app⟩ contractBalance s amount with
    | error e => rfl
    | ok x =>
      obtain ⟨-, hx⟩ := ite_ok_inv (by simpa only [withdrawPlatformFees] using hres)
      subst hx
      rfl
  | opSetBadgeThresholds sender bronze silver gold diamond =>
    simp only [step]
    cases hres : setBadgeThresholds ⟨sender, app⟩ s bronze silver gold diamond with
    | error e => rfl
    | ok x =>
      obtain ⟨-, hx⟩ := ite_ok_inv (by simpa only [setBadgeThresholds] using hres)
      subst hx
      rfl

/-- C7: `transferAdmin` succeeds only for the current admin proposing a
different account and then only sets the pending slot; `acceptAdmin` rejects
with no pending transfer or a non-pending caller, and on success installs the
caller as admin and clears the pending slot, after which the previous admin
fails every admin-only method; and no call other than an `acceptAdmin`
(initialization apart) ever changes `adminAddress`. -/
theorem claim_C7 (ctx ctx2 : Ctx) (s : TipJarState) (newAdmin otherAdmin : Addr)
    (x y : TipJarState × String) (bal v1 v2 v3 v4 : Nat) (op : Op) (app : Addr) :
    (transferAdmin ctx s newAdmin = .ok x →
        ctx.sender = s.adminAddress ∧ newAdmin ≠ s.adminAddress ∧
        x.1 = { s with pendingAdminAddress := newAdmin }) ∧
    (ctx.sender ≠ s.adminAddress ∨ newAdmin = ctx.sender →
        isOk (transferAdmin ctx s newAdmin) = false) ∧
    (acceptAdmin ctx s = .ok y →
        s.pendingAdminAddress ≠ "" ∧ ctx.sender = s.pendingAdminAddress ∧
        y.1 = { s with adminAddress := ctx.sender, pendingAdminAddress := "" }) ∧
    (s.pendingAdminAddress = "" → isOk (acceptAdmin ctx s) = false) ∧
    (ctx.sender ≠ s.pendingAdminAddress → isOk (acceptAdmin ctx s) = false) ∧
    (acceptAdmin ctx s = .ok y → ctx2.sender = s.adminAddress →
        s.adminAddress ≠ ctx.sender →
        isOk (pauseContract ctx2 y.1) = false ∧
        isOk (unpauseContract ctx2 y.1) = false ∧
        isOk (transferAdmin ctx2 y.1 otherAdmin) = false ∧
        isOk (setMinTipAmount ctx2 y.1 v1) = false ∧
        isOk (setPlatformFee ctx2 y.1 v1) = false ∧
        isOk (withdrawPlatformFees ctx2 bal y.1 v1) = false ∧
        isOk (setBadgeThresholds ctx2 y.1 v1 v2 v3 v4) = false) ∧
    (isAcceptAdminOp op = false → (step app s op).adminAddress = s.adminAddress) := by
  refine ⟨?_, ?_, ?_, ?_, ?_, ?_, fun h => step_preserves_admin app s op h⟩
  · intro h
    obtain ⟨hc, hx⟩ := ite_ok_inv (by simpa only [transferAdmin] using h)
    subst hx
    exact ⟨hc.1, by rw [← hc.1]; exact hc.2, rfl⟩
  · intro hbad
    simp only [transferAdmin]
    refine ite_isOk_false ?_
    rintro ⟨h1, h2⟩
    rcases hbad with hb | hb
    · exact hb h1
    · exact h2 hb
  · intro h
    obtain ⟨hc, hy⟩ := ite_ok_inv (by simpa only [acceptAdmin] using h)
    subst hy
    exact ⟨hc.1, hc.2, rfl⟩
  · intro hempty
    simp only [acceptAdmin]
    refine ite_isOk_false ?_
    rintro ⟨h1, -⟩
    exact h1 hempty
  · intro hnp
    simp only [acceptAdmin]
    refine ite_isOk_false ?_
    rintro ⟨-, h2⟩
    exact hnp h2
  · intro h hctx2 hold
    obtain ⟨hc, hy⟩ := ite_ok_inv (by simpa only [acceptAdmin] using h)
    subst hy
    have hadm : ctx2.sender ≠ ctx.sender := by
      rw [hctx2]
      exact hold
    refine ⟨?_, ?_, ?_, ?_, ?_, ?_, ?_⟩
    · simp only [pauseContract]
      exact ite_isOk_false hadm
    · simp only [unpauseContract]
      exact ite_isOk_false hadm
    · simp only [transferAdmin]
      exact ite_isOk_false (by rintro ⟨h1, -⟩; exact hadm h1)
    · simp only [setMinTipAmount]
      exact ite_isOk_false (by rintro ⟨h1, -⟩; exact hadm h1)
    · simp only [setPlatformFee]
      exact ite_isOk_false (by rintro ⟨h1, -⟩; exact hadm h1)
    · simp only [withdrawPlatformFees]
      exact ite_isOk_false (by rintro ⟨h1, -⟩; exact hadm h1)
    · simp only [setBadgeThresholds]
      exact ite_isOk_false (by rintro ⟨h1, -⟩; exact hadm h1)

/-- C7 witness: after `"ADMIN"` proposes `"NEWADMIN"` and `"NEWADMIN"`
accepts, the pending slot is cleared, `"NEWADMIN"` is the admin, and the old
admin `"ADMIN"` can no longer pause the contract. -/
theorem claim_C7_witness :
    (stPend.pendingAdminAddress ≠ "" ∧ "NEWADMIN" = stPend.pendingAdminAddress ∧
     ({ stPend with adminAddress := "NEWADMIN", pendingAdminAddress := "" },
        "Admin role accepted").1
       = { stPend with adminAddress := "NEWADMIN", pendingAdminAddress := "" }) ∧
    (isOk (pauseContract ⟨"ADMIN", "APP"⟩
        ({ stPend with adminAddress := "NEWADMIN", pendingAdminAddress := "" },
          "Admin role accepted").1) = false ∧
     isOk (unpauseContract ⟨"ADMIN", "APP"⟩
        ({ stPend with adminAddress := "NEWADMIN", pendingAdminAddress := "" },
          "Admin role accepted").1) = false ∧
     isOk (transferAdmin ⟨"ADMIN", "APP"⟩
        ({ stPend with adminAddress := "NEWADMIN", pendingAdminAddress := "" },
          "Admin role accepted").1 "OTHER") = false ∧
     isOk (setMinTipAmount ⟨"ADMIN", "APP"⟩
        ({ stPend with adminAddress := "NEWADMIN", pendingAdminAddress := "" },
          "Admin role accepted").1 20000) = false ∧
     isOk (setPlatformFee ⟨"ADMIN", "APP"⟩
        ({ stPend with adminAddress := "NEWADMIN", pendingAdminAddress := "" },
          "Admin role accepted").1 20000) = false ∧
     isOk (withdrawPlatformFees ⟨"ADMIN", "APP"⟩ 500000
        ({ stPend with adminAddress := "NEWADMIN", pendingAdminAddress := "" },
          "Admin role accepted").1 20000) = false ∧
     isOk (setBadgeThresholds ⟨"ADMIN", "APP"⟩
        ({ stPend with adminAddress := "NEWADMIN", pendingAdminAddress := "" },
          "Admin role accepted").1 20000 30000 40000 50000) = false) :=
  ⟨(claim_C7 ⟨"NEWADMIN", "APP"⟩ ⟨"ADMIN", "APP"⟩ stPend "X" "OTHER"
      ({ stPend with pendingAdminAddress := "X" }, "")
      ({ stPend with adminAddress := "NEWADMIN", pendingAdminAddress := "" },
        "Admin role accepted")
      500000 20000 30000 40000 50000 (Op.opPause "ADMIN") "APP").2.2.1 rfl,
   (claim_C7 ⟨"NEWADMIN", "APP"⟩ ⟨"ADMIN", "APP"⟩ stPend "X" "OTHER"
      ({ stPend with pendingAdminAddress := "X" }, "")
      ({ stPend with adminAddress := "NEWADMIN", pendingAdminAddress := "" },
        "Admin role accepted")
      500000 20000 30000 40000 50000 (Op.opPause "ADMIN") "APP").2.2.2.2.2.1
     rfl (by decide) (by decide)⟩

end TipJar

namespace TipJar

theorem sumTips_set (l : List (Addr × Profile)) (a : Addr) (p : Profile) :
    sumTipsReceived (setProfile l a p) + (getProfile l a).tipsReceived
      = sumTipsReceived l + p.tipsReceived := by
  simpa [sumTipsReceived] using
    sum_map_setProfile (fun pr => pr.tipsReceived) rfl l a p

theorem sumCount_set (l : List (Addr × Profile)) (a : Addr) (p : Profile) :
    sumTipCount (setProfile l a p) + (getProfile l a).tipCount
      = sumTipCount l + p.tipCount := by
  simpa [sumTipCount] using
    sum_map_setProfile (fun pr => pr.tipCount) rfl l a p

theorem ConsInv_step (app : Addr) (s : TipJarState) (op : Op) (h : ConsInv s) :
    ConsInv (step app s op) := by
  obtain ⟨hall, hsum, hcnt⟩ := h
  cases op with
  | opRegister sender name bio category profileImage =>
    simp only [step]
    cases hres : registerCreator ⟨sender, app⟩ s name bio category profileImage with
    | error e => exact ⟨hall, hsum, hcnt⟩
    | ok x =>
      obtain ⟨hc, hx⟩ := ite_ok_inv (by simpa only [registerCreator] using hres)
      subst hx
      have hdef : getProfile s.locals sender = defaultProfile :=
        getProfile_default_of_not_registered hall hc.2.1
      have hs := sumTips_set s.locals sender
        { creatorName := name, creatorBio := bio, creatorCategory := category,
          profileImageUrl := profileImage, tipsReceived := 0, tipCount := 0,
          isRegistered := 1, revSplitAddress := "", revSplitPercent := 0,
          revSplitName := "" }
      have hn := sumCount_set s.locals sender
        { creatorName := name, creatorBio := bio, creatorCategory := category,
          profileImageUrl := profileImage, tipsReceived := 0, tipCount := 0,
          isRegistered := 1, revSplitAddress := "", revSplitPercent := 0,
          revSplitName := "" }
      rw [hdef] at hs hn
      dsimp only at hs hn
      refine ⟨?_, ?_, ?_⟩
      · intro e he
        rcases mem_setProfile he with rfl | he'
        · rfl
        · exact hall e he'
      · show sumTipsReceived (setProfile s.locals sender _) = s.totalTipsProcessed
        have h0 : defaultProfile.tipsReceived = 0 := rfl
        omega
      · show sumTipCount (setProfile s.locals sender _) = s.totalTipCount
        have h0 : defaultProfile.tipCount = 0 := rfl
        omega
  | opUpdateProfile sender name bio category profileImage =>
    simp only [step]
    cases hres : updateProfile ⟨sender, app⟩ s name bio category profileImage with
    | error e => exact ⟨hall, hsum, hcnt⟩
    | ok x =>
      obtain ⟨hc, hx⟩ := ite_ok_inv (by simpa only [updateProfile] using hres)
      subst hx
      have hs := sumTips_set s.locals sender
        { getProfile s.locals sender with
            creatorName := name, creatorBio := bio,
            creatorCategory := category, profileImageUrl := profileImage }
      have hn := sumCount_set s.locals sender
        { getProfile s.locals sender with
            creatorName := name, creatorBio := bio,
            creatorCategory := category, profileImageUrl := profileImage }
      dsimp only at hs hn
      refine ⟨?_, ?_, ?_⟩
      · intro e he
        rcases mem_setProfile he with rfl | he'
        · exact hc.2.1
        · exact hall e he'
      · show sumTipsReceived (setProfile s.locals sender _) = s.totalTipsProcessed
        omega
      · show sumTipCount (setProfile s.locals sender _) = s.totalTipCount
        omega
  | opSetRevenueSplit sender collaboratorAddr collaboratorName splitPercent =>
    simp only [step]
    cases hres : setRevenueSplit ⟨sender, app⟩ s collaboratorAddr collaboratorName splitPercent with
    | error e => exact ⟨hall, hsum, hcnt⟩
    | ok x =>
      obtain ⟨hc, hx⟩ := ite_ok_inv (by simpa only [setRevenueSplit] using hres)
      subst hx
      have hs := sumTips_set s.locals sender
        { getProfile s.locals sender with
            revSplitAddress := collaboratorAddr, revSplitName := collaboratorName,
            revSplitPercent := splitPercent }
      have hn := sumCount_set s.locals sender
        { getProfile s.locals sender with
            revSplitAddress := collaboratorAddr, revSplitName := collaboratorName,
            revSplitPercent := splitPercent }
      dsimp only at hs hn
      refine ⟨?_, ?_, ?_⟩
      · intro e he
        rcases mem_setProfile he with rfl | he'
        · exact hc.2.1
        · exact hall e he'
      · show sumTipsReceived (setProfile s.locals sender _) = s.totalTipsProcessed
        omega
      · show sumTipCount (setProfile s.locals sender _) = s.totalTipCount
        omega
  | opRemoveRevenueSplit sender =>
    simp only [step]
    cases hres : removeRevenueSplit ⟨sender, app⟩ s with
    | error e => exact ⟨hall, hsum, hcnt⟩
    | ok x =>
      obtain ⟨hc, hx⟩ := ite_ok_inv (by simpa only [removeRevenueSplit] using hres)
      subst hx
      have hs := sumTips_set s.locals sender
        { getProfile s.locals sender with
            revSplitAddress := "", revSplitName := "", revSplitPercent := 0 }
      have hn := sumCount_set s.locals sender
        { getProfile s.locals sender with
            revSplitAddress := "", revSplitName := "", revSplitPercent := 0 }
      dsimp only at hs hn
      refine ⟨?_, ?_, ?_⟩
      · intro e he
        rcases mem_setProfile he with rfl | he'
        · exact hc.2
        · exact hall e he'
      · show sumTipsReceived (setProfile s.locals sender _) = s.totalTipsProcessed
        omega
      · show sumTipCount (setProfile s.locals sender _) = s.totalTipCount
        omega
  | opSendTip sender creator message tipPayment =>
    simp only [step]
    cases hres : sendTip ⟨sender, app⟩ s creator message tipPayment with
    | error e => exact ⟨hall, hsum, hcnt⟩
    | ok x =>
      obtain ⟨hc, hx⟩ := ite_ok_inv (by simpa only [sendTip] using hres)
      subst hx
      have hs := sumTips_set s.locals creator
        { getProfile s.locals creator with
            tipsReceived := (getProfile s.locals creator).tipsReceived + tipPayment.amount,
            tipCount := (getProfile s.locals creator).tipCount + 1 }
      have hn := sumCount_set s.locals creator
        { getProfile s.locals creator with
            tipsReceived := (getProfile s.locals creator).tipsReceived + tipPayment.amount,
            tipCount := (getProfile s.locals creator).tipCount + 1 }
      dsimp only at hs hn
      refine ⟨?_, ?_, ?_⟩
      · intro e he
        rcases mem_setProfile he with rfl | he'
        · exact hc.2.1
        · exact hall e he'
      · show sumTipsReceived (setProfile s.locals creator _)
          = s.totalTipsProcessed + tipPayment.amount
        omega
      · show sumTipCount (setProfile s.locals creator _) = s.totalTipCount + 1
        omega
  | opMintBadge sender supporter badgeTier creatorAddr =>
    simp only [step]
    cases hres : mintBadge ⟨sender, app⟩ s supporter badgeTier creatorAddr with
    | error e => exact ⟨hall, hsum, hcnt⟩
    | ok x =>
      obtain ⟨-, hx⟩ := ite_ok_inv (by simpa only [mintBadge] using hres)
      subst hx
      exact ⟨hall, hsum, hcnt⟩
  | opPause sender =>
    simp only [step]
    cases hres : pauseContract ⟨sender, app⟩ s with
    | error e => exact ⟨hall, hsum, hcnt⟩
    | ok x =>
      obtain ⟨-, hx⟩ := ite_ok_inv (by simpa only [pauseContract] using hres)
      subst hx
      exact ⟨hall, hsum, hcnt⟩
  | opUnpause sender =>
    simp only [step]
    cases hres : unpauseContract ⟨sender, app⟩ s with
    | error e => exact ⟨hall, hsum, hcnt⟩
    | ok x =>
      obtain ⟨-, hx⟩ := ite_ok_inv (by simpa only [unpauseContract] using hres)
      subst hx
      exact ⟨hall, hsum, hcnt⟩
  | opTransferAdmin sender newAdmin =>
    simp only [step]
    cases hres : transferAdmin ⟨sender, app⟩ s newAdmin with
    | error e => exact ⟨hall, hsum, hcnt⟩
    | ok x =>
      obtain ⟨-, hx⟩ := ite_ok_inv (by simpa only [transferAdmin] using hres)
      subst hx
      exact ⟨hall, hsum, hcnt⟩
  | opAcceptAdmin sender =>
    simp only [step]
    cases hres : acceptAdmin ⟨sender, app⟩ s with
    | error e => exact ⟨hall, hsum, hcnt⟩
    | ok x =>
      obtain ⟨-, hx⟩ := ite_ok_inv (by simpa only [acceptAdmin] using hres)
      subst hx
      exact ⟨hall, hsum, hcnt⟩
  | opSetMinTipAmount sender newMin =>
    simp only [step]
    cases hres : setMinTipAmount ⟨sender, app⟩ s newMin with
    | error e => exact ⟨hall, hsum, hcnt⟩
    | ok x =>
      obtain ⟨-, hx⟩ := ite_ok_inv (by simpa only [setMinTipAmount] using hres)
      subst hx
      exact ⟨hall, hsum, hcnt⟩
  | opSetPlatformFee sender newFeeBps =>
    simp only [step]
    cases hres : setPlatformFee ⟨sender, app⟩ s newFeeBps with
    | error e => exact ⟨hall, hsum, hcnt⟩
    | ok x =>
      obtain ⟨-, hx⟩ := ite_ok_inv (by simpa only [setPlatformFee] using hres)
      subst hx
      exact ⟨hall, hsum, hcnt⟩
  | opWithdrawPlatformFees sender contractBalance amount =>
    simp only [step]
    cases hres : withdrawPlatformFees ⟨sender, app⟩ contractBalance s amount with
    | error e => exact ⟨hall, hsum, hcnt⟩
    | ok x =>
      obtain ⟨-, hx⟩ := ite_ok_inv (by simpa only [withdrawPlatformFees] using hres)
      subst hx
      exact ⟨hall, hsum, hcnt⟩
  | opSetBadgeThresholds sender bronze silver gold diamond =>
    simp only [step]
    cases hres : setBadgeThresholds ⟨sender, app⟩ s bronze silver gold diamond with
    | error e => exact ⟨hall, hsum, hcnt⟩
    | ok x =>
      obtain ⟨-, hx⟩ := ite_ok_inv (by simpa only [setBadgeThresholds] using hres)
      subst hx
      exact ⟨hall, hsum, hcnt⟩

theorem ConsInv_exec (app : Addr) (ops : List Op) (s : TipJarState) (h : ConsInv s) :
    ConsInv (execOps app s ops) := by
  induction ops generalizing s with
  | nil => exact h
  | cons op rest ih => exact ih (step app s op) (ConsInv_step app s op h)

/-- C2: along every sequence of calls from initialization, every stored
profile is registered, the per-profile `tipsReceived` sum over the store
equals `totalTipsProcessed`, and the per-profile `tipCount` sum equals
`totalTipCount` (registration inserts zeroed counters, a successful `sendTip`
adds the gross amount and one tip to both sides, and no other call touches
these fields). -/
theorem claim_C2 (app deployer : Addr) (ops : List Op) :
    (∀ e ∈ (execOps app (createApplication deployer) ops).locals,
        e.2.isRegistered = 1) ∧
    sumTipsReceived (execOps app (createApplication deployer) ops).locals
      = (execOps app (createApplication deployer) ops).totalTipsProcessed ∧
    sumTipCount (execOps app (createApplication deployer) ops).locals
      = (execOps app (createApplication deployer) ops).totalTipCount :=
  ConsInv_exec app ops (createApplication deployer)
    ⟨fun e he => absurd he (List.not_mem_nil e), rfl, rfl⟩

end TipJar
